import Mathlib

/-!
Shallow embedding of the derivation core of `src/FinancialTableGenerator.jsx`
(the housing-expense report calculator).  JavaScript numbers are modelled as
exact rationals (ℚ): the claims under study are about control flow, string
structure and exact arithmetic, not binary floating point.  JavaScript strings
are Lean `String`s.  Each definition is annotated with the source line it
embeds.
-/

namespace HousingExpense

/-- A raw input row as held in component state (line 22 / 38):
`{ name: string, amount: string }`. -/
structure LineItem where
  name : String
  amount : String
deriving Repr, DecidableEq

/-- An item after numeric parsing (line 50): `{ name, value: number }`. -/
structure ParsedItem where
  name : String
  value : ℚ
deriving Repr, DecidableEq

/-- A row of the final report table (lines 82-95):
`{ name, value, percent }` where `percent` is a display string. -/
structure ReportRow where
  name : String
  value : ℚ
  percent : String
deriving Repr, DecidableEq

/-- Line 11: the six fixed/reserved input category names. -/
def INPUT_CATEGORIES : List String :=
  ["Earnings", "Rent/Interest Paid", "Insurance Paid", "Maintenance",
   "Rates (Taxes)", "Principal Paid"]

/-- Numeric value of a decimal digit character. -/
def digitVal (c : Char) : ℕ := c.toNat - '0'.toNat

/-- Value of a list of decimal digit characters read left to right. -/
def digitsToNat (ds : List Char) : ℕ := ds.foldl (fun a c => 10 * a + digitVal c) 0

/-- Model of JavaScript `parseFloat` restricted to plain decimal literals:
optional leading whitespace, an optional sign, integer digits, an optional
fractional part; any trailing junk is ignored, exactly as `parseFloat` does.
`none` models the `NaN` result on strings with no parsable prefix.
(Exponent notation and the literal `Infinity`, which `parseFloat` also
accepts, are outside this model; no claim exercises them.) -/
def parseFloatQ (s : String) : Option ℚ :=
  let cs := s.toList.dropWhile (fun c => c = ' ' ∨ c = '\t' ∨ c = '\n' ∨ c = '\r')
  let sign : ℚ := match cs with
    | '-' :: _ => -1
    | _ => 1
  let cs1 := match cs with
    | '-' :: rest => rest
    | '+' :: rest => rest
    | _ => cs
  let intd := cs1.takeWhile Char.isDigit
  let rest := cs1.dropWhile Char.isDigit
  let fracd := match rest with
    | '.' :: r => r.takeWhile Char.isDigit
    | _ => []
  if intd = [] ∧ fracd = [] then none
  else some (sign * ((digitsToNat intd : ℚ) + (digitsToNat fracd : ℚ) / (10 : ℚ) ^ fracd.length))

/-- Removal of every comma, embedding `it.amount.replace(/,/g, '')` (line 50). -/
def stripCommas (s : String) : String := String.mk (s.toList.filter (fun c => c ≠ ','))

/-- Line 50: `parseFloat(it.amount.replace(/,/g, '')) || 0`.  The `|| 0`
turns the `NaN` of an unparsable string into `0` (and is the identity on any
parsed number, `0` included). -/
def parseAmount (raw : String) : ℚ := (parseFloatQ (stripCommas raw)).getD 0

/-- Lines 49-52: the `parsed` memo, mapping each raw row to a `ParsedItem`. -/
def parsedItems (items : List LineItem) : List ParsedItem :=
  items.map (fun it => ⟨it.name, parseAmount it.amount⟩)

/-- Line 53: `parsed.find(n => n.name === 'Earnings')?.value || 0`. -/
def income (items : List LineItem) : ℚ :=
  (((parsedItems items).find? (fun n => n.name == "Earnings")).map (fun n => n.value)).getD 0

/-- Lines 54-57: `parsed.filter(n => INPUT_CATEGORIES.slice(1,5).includes(n.name))
.reduce((sum, n) => sum + n.value, 0)`; `slice(1,5)` is the four interior
reserved categories. -/
def nonPrincipal (items : List LineItem) : ℚ :=
  ((parsedItems items).filter
    (fun n => ((INPUT_CATEGORIES.drop 1).take 4).contains n.name)).foldl
    (fun sum n => sum + n.value) 0

/-- Lines 14-17: `getClassification`. -/
def getClassification (percent : ℚ) : String :=
  if percent ≤ 30 then "Ideal (≤30%)"
  else if percent ≤ 50 then "Cost-burdened (30–50%)"
  else "Severely cost-burdened (>50%)"

/-- Line 60: `income ? (nonPrincipal / income) * 100 : 0` (JS truthiness of a
number: `0` is falsy). -/
def pctIncome (items : List LineItem) : ℚ :=
  if income items = 0 then 0 else (nonPrincipal items / income items) * 100

/-- Line 66: `(typeof period === 'string' && period.startsWith('Q')) ? 13 :
period === '6 Months' ? 26 : 52`.  In this model `period` is always a string,
so the `typeof` guard is always true; `period.startsWith('Q')` is embedded as
the character list of `"Q"` being a prefix of the character list of `period`,
which is exactly what `startsWith` tests. -/
def weeks (period : String) : ℚ :=
  if "Q".toList.isPrefixOf period.toList then 13
  else if period = "6 Months" then 26
  else 52

/-- Line 67: `nonPrincipal / weeks`. -/
def weeklyRent (items : List LineItem) (period : String) : ℚ :=
  nonPrincipal items / weeks period

/-- Line 68: `income ? (income / weeks) * 0.3 : 0`.  The literal `0.3` is
modelled by the exact rational 3/10. -/
def affordableWeekly (items : List LineItem) (period : String) : ℚ :=
  if income items = 0 then 0 else (income items / weeks period) * (3 / 10)

/-- Rounding of `q` to an integer number of hundredths, half away from zero:
the idealized-decimal model of `amount.toFixed(2)` (line 28). -/
def jsRound2 (q : ℚ) : ℤ :=
  if q < 0 then -⌊(-q) * 100 + 1 / 2⌋ else ⌊q * 100 + 1 / 2⌋

/-- Insertion of a comma after every group of three characters, on a
reversed digit list: the grouping performed by `Intl.NumberFormat` (line 9). -/
def group3 (cs : List Char) : List Char :=
  match cs with
  | a :: b :: c :: d :: rest => a :: b :: c :: ',' :: group3 (d :: rest)
  | l => l

/-- Decimal rendering of a natural number with thousands separators,
as `numberFormatter.format` produces for integers (lines 9, 29). -/
def groupedNat (n : ℕ) : String := String.mk ((group3 (Nat.repr n).toList.reverse).reverse)

/-- Two-digit zero-padded rendering of a value below 100. -/
def twoDigits (d : ℕ) : String := (if d < 10 then "0" else "") ++ Nat.repr d

/-- Lines 27-31: `formatAmount` — `toFixed(2)`, split at the decimal point,
group the integer part, and drop a `.00` fraction. -/
def formatAmount (amount : ℚ) : String :=
  let n := jsRound2 amount
  let sign := if n < 0 then "-" else ""
  let intPart := groupedNat (n.natAbs / 100)
  let decPart := n.natAbs % 100
  if decPart = 0 then sign ++ intPart else sign ++ intPart ++ "." ++ twoDigits decPart

/-- Idealized-decimal model of `(x).toFixed(2)` used where the code formats a
percentage (lines 94, 101, 105): always two decimals, no grouping. -/
def toFixed2Str (q : ℚ) : String :=
  let n := jsRound2 q
  (if n < 0 then "-" else "") ++ Nat.repr (n.natAbs / 100) ++ "." ++ twoDigits (n.natAbs % 100)

/-- Line 53/74 access pattern `parsed.find(n => n.name === nm)?.value || 0`:
the parsed value of the first item with the given name, `0` when absent. -/
def findVal (items : List LineItem) (nm : String) : ℚ :=
  (((parsedItems items).find? (fun n => n.name == nm)).map (fun n => n.value)).getD 0

/-- Lines 70-80: the `finalItems` memo — the parsed items followed by the four
derived rows, with Total Mortgage Outlay built from the two `find` lookups of
line 74. -/
def finalItems (items : List LineItem) (period : String) : List ParsedItem :=
  (parsedItems items ++
    [⟨"Total Non-Principal Housing Expense", nonPrincipal items⟩,
     ⟨"Total Mortgage Outlay",
       findVal items "Rent/Interest Paid" + findVal items "Principal Paid"⟩]) ++
  [⟨"Estimated Weekly Rent", weeklyRent items period⟩,
   ⟨"Affordable Weekly Rent", affordableWeekly items period⟩]

/-- Lines 82-95: the row-mapping lambda inside the `tableData` memo,
attaching a percent display string to one final item by name. -/
def tableRow (items : List LineItem) (period : String) (it : ParsedItem) : ReportRow :=
  if it.name = "Estimated Weekly Rent" then
    let diff := it.value - affordableWeekly items period
    ⟨it.name, it.value,
      if diff > 0 then "Overspending by $" ++ formatAmount diff
      else "Under by $" ++ formatAmount |diff|⟩
  else if it.name = "Affordable Weekly Rent" ∨ it.name = "Earnings" then
    ⟨it.name, it.value, ""⟩
  else
    ⟨it.name, it.value,
      if income items = 0 then ""
      else toFixed2Str ((it.value / income items) * 100) ++ "%"⟩

/-- Lines 82-95: the `tableData` memo, `finalItems.map(...)` with the row
lambda above. -/
def tableData (items : List LineItem) (period : String) : List ReportRow :=
  (finalItems items period).map (tableRow items period)

/-- Line 97 predicate `parseFloat(d.percent) >= 4`: `parseFloat` of a string
with no numeric prefix is `NaN`, and `NaN >= 4` is false. -/
def geFourParsed (s : String) : Bool :=
  match parseFloatQ s with
  | some q => decide ((4 : ℚ) ≤ q)
  | none => false

/-- Line 97: `tableData.filter(d => d.name !== 'Earnings' && parseFloat(d.percent) >= 4)`. -/
def chartItems (items : List LineItem) (period : String) : List ReportRow :=
  (tableData items period).filter (fun d => d.name != "Earnings" && geFourParsed d.percent)

/-- Lines 99-110: the `templates` memo (narrative lines).  The `if (pp)` on
line 104 tests JS truthiness of the object returned by `find`; any found
object is truthy, so the extra line is pushed exactly when an item named
"Principal Paid" exists, whatever its value. -/
def templates (items : List LineItem) (period : String) : List String :=
  let t1 := "Non-Principal Housing Expense (" ++ period ++ "): $" ++
    formatAmount (nonPrincipal items) ++ " (" ++ toFixed2Str (pctIncome items) ++ "% of income)"
  let t2 := "Classification: " ++ getClassification (pctIncome items)
  let withPP := match (parsedItems items).find? (fun d => d.name == "Principal Paid") with
    | some pp => [t1, t2,
        "Principal Paid: $" ++ formatAmount pp.value ++ " (" ++
        (if income items = 0 then "0.00"
         else toFixed2Str ((pp.value / income items) * 100)) ++ "% of income)"]
    | none => [t1, t2]
  let totalDiff := (weeklyRent items period - affordableWeekly items period) * weeks period
  withPP ++
    [if totalDiff > 0 then "Total overspending for " ++ period ++ ": $" ++ formatAmount totalDiff
     else "Total savings for " ++ period ++ ": $" ++ formatAmount |totalDiff|]

/-- Division instrumented with an explicit zero-divisor check, used to state
the safety claim that the code never divides by zero. -/
def checkedDiv (a b : ℚ) : Option ℚ := if b = 0 then none else some (a / b)

/-- Line 60 with its division checked: the guard `income ? _ : 0` is the
source's own conditional. -/
def pctIncomeChecked (items : List LineItem) : Option ℚ :=
  if income items = 0 then some 0
  else (checkedDiv (nonPrincipal items) (income items)).map (fun r => r * 100)

/-- Line 67 with its division by the week count checked. -/
def weeklyRentChecked (items : List LineItem) (period : String) : Option ℚ :=
  checkedDiv (nonPrincipal items) (weeks period)

/-- Line 68 with its division checked, keeping the source's `income ? _ : 0`
guard. -/
def affordableWeeklyChecked (items : List LineItem) (period : String) : Option ℚ :=
  if income items = 0 then some 0
  else (checkedDiv (income items) (weeks period)).map (fun r => r * (3 / 10))

/-- Line 94 with its division checked, keeping the source's `income ? _ : ''`
guard: the percent cell computed for an ordinary row of value `v`. -/
def rowPercentChecked (items : List LineItem) (v : ℚ) : Option String :=
  if income items = 0 then some ""
  else (checkedDiv v (income items)).map (fun r => toFixed2Str (r * 100) ++ "%")

/-! Helper evaluation lemmas for decimal digit characters, and small shared
facts used by several claim proofs. -/

theorem digitVal_zero : digitVal '0' = 0 := rfl

theorem digitVal_one : digitVal '1' = 1 := rfl

theorem digitVal_two : digitVal '2' = 2 := rfl

theorem digitVal_three : digitVal '3' = 3 := rfl

theorem digitVal_four : digitVal '4' = 4 := rfl

theorem digitVal_five : digitVal '5' = 5 := rfl

theorem digitVal_six : digitVal '6' = 6 := rfl

theorem digitVal_seven : digitVal '7' = 7 := rfl

theorem digitVal_eight : digitVal '8' = 8 := rfl

theorem digitVal_nine : digitVal '9' = 9 := rfl

theorem weeks_cases (p : String) : weeks p = 13 ∨ weeks p = 26 ∨ weeks p = 52 := by
  unfold weeks
  split_ifs <;> simp

theorem weeks_ne_zero (p : String) : weeks p ≠ 0 := by
  rcases weeks_cases p with h | h | h <;> rw [h] <;> norm_num

theorem foldl_add_value (l : List ParsedItem) (a : ℚ) :
    l.foldl (fun sum n => sum + n.value) a = a + (l.map (fun n => n.value)).sum := by
  induction l generalizing a with
  | nil => simp
  | cons x xs ih => simp [ih, add_assoc]

theorem geFourParsed_eq_true_iff (s : String) :
    geFourParsed s = true ↔ ∃ q : ℚ, parseFloatQ s = some q ∧ 4 ≤ q := by
  unfold geFourParsed
  cases h : parseFloatQ s <;> simp

/-- C2: for every non-negative percent `p`, the classification maps `p ≤ 30`
to Ideal, `30 < p ≤ 50` to Cost-burdened and `p > 50` to Severely
cost-burdened; in particular 30 is Ideal, 30.0001 is Cost-burdened, 50 is
Cost-burdened and 50.0001 is Severely cost-burdened, so each boundary belongs
to the lower-severity bucket. -/
theorem c2_classify_boundaries :
    (∀ p : ℚ, 0 ≤ p →
      (p ≤ 30 → getClassification p = "Ideal (≤30%)") ∧
      (30 < p → p ≤ 50 → getClassification p = "Cost-burdened (30–50%)") ∧
      (50 < p → getClassification p = "Severely cost-burdened (>50%)")) ∧
    getClassification 30 = "Ideal (≤30%)" ∧
    getClassification (300001 / 10000) = "Cost-burdened (30–50%)" ∧
    getClassification 50 = "Cost-burdened (30–50%)" ∧
    getClassification (500001 / 10000) = "Severely cost-burdened (>50%)" := by
  constructor
  · intro p hp
    refine ⟨fun h1 => ?_, fun h1 h2 => ?_, fun h1 => ?_⟩ <;>
      unfold getClassification <;> split_ifs <;> first | rfl | linarith
  · refine ⟨?_, ?_, ?_, ?_⟩ <;> norm_num [getClassification]

/-- Witness for C2 at percents 15, 42 and 61. -/
theorem c2_classify_boundaries_witness :
    getClassification 15 = "Ideal (≤30%)" ∧
    getClassification 42 = "Cost-burdened (30–50%)" ∧
    getClassification 61 = "Severely cost-burdened (>50%)" :=
  ⟨(c2_classify_boundaries.1 15 (by norm_num)).1 (by norm_num),
   (c2_classify_boundaries.1 42 (by norm_num)).2.1 (by norm_num) (by norm_num),
   (c2_classify_boundaries.1 61 (by norm_num)).2.2 (by norm_num)⟩

/-- C3 as stated is false: the week count of any string starting with "Q" is
13, so the unrecognized period "Quarter" is mapped to 13, not to the claimed
fallback of 52. -/
theorem c3_weeks_counterexample :
    weeks "Quarter" = 13 ∧ weeks "Quarter" ≠ 52 ∧
    "Quarter" ∉ (["Q1", "Q2", "Q3", "Q4", "6 Months", "Full Year"] : List String) := by
  refine ⟨?_, ?_, ?_⟩
  · simp +decide [weeks]
  · simp +decide [weeks]
  · decide

/-- C3 amended: the week count is 13 for every string starting with "Q"
(which covers Q1-Q4), 26 for "6 Months", and 52 for every string that neither
starts with "Q" nor equals "6 Months" ("Full Year" included); no period value
is rejected. -/
theorem c3_weeks_amended :
    (∀ p ∈ (["Q1", "Q2", "Q3", "Q4"] : List String), weeks p = 13) ∧
    weeks "6 Months" = 26 ∧ weeks "Full Year" = 52 ∧
    (∀ p : String, "Q".toList.isPrefixOf p.toList = true → weeks p = 13) ∧
    (∀ p : String, "Q".toList.isPrefixOf p.toList = false → p ≠ "6 Months" →
      weeks p = 52) := by
  refine ⟨?_, ?_, ?_, fun p hp => ?_, fun p hp hne => ?_⟩
  · intro p hp
    fin_cases hp <;> simp +decide [weeks]
  · simp +decide [weeks]
  · simp +decide [weeks]
  · simp at hp
    simp [weeks, hp]
  · simp at hp
    simp [weeks, hp, hne]

/-- Witness for C3's amended statement on the Q-prefixed string "Q9" and the
unrecognized string "Half Year". -/
theorem c3_weeks_amended_witness :
    weeks "Q9" = 13 ∧ weeks "Half Year" = 52 :=
  ⟨c3_weeks_amended.2.2.2.1 "Q9" (by decide),
   c3_weeks_amended.2.2.2.2 "Half Year" (by decide) (by decide)⟩

/-- C7: amount parsing strips every comma (the thousands separator) before
parsing; when the remainder has no parsable numeric prefix the result is 0
(the soft failure), and when it parses to `q` the result is `q`; the function
is total, so no failure is surfaced. -/
theorem c7_parse_soft_fail :
    ∀ s : String,
      (∀ c ∈ (stripCommas s).toList, c ≠ ',') ∧
      (parseFloatQ (stripCommas s) = none → parseAmount s = 0) ∧
      (∀ q : ℚ, parseFloatQ (stripCommas s) = some q → parseAmount s = q) := by
  intro s
  refine ⟨?_, fun h => ?_, fun q h => ?_⟩
  · intro c hc
    have hrw : (stripCommas s).toList = s.toList.filter (fun c => c ≠ ',') := rfl
    rw [hrw] at hc
    exact of_decide_eq_true (List.mem_filter.mp hc).2
  · unfold parseAmount
    rw [h]
    rfl
  · unfold parseAmount
    rw [h]
    rfl

/-- Witness for C7 on the unparsable string "abc" and on "1,234.5". -/
theorem c7_parse_soft_fail_witness :
    parseAmount "abc" = 0 ∧ parseAmount "1,234.5" = 2469 / 2 :=
  ⟨(c7_parse_soft_fail "abc").2.1 (by norm_num +decide [parseFloatQ, stripCommas]),
   (c7_parse_soft_fail "1,234.5").2.2 (2469 / 2)
     (by norm_num +decide [parseFloatQ, stripCommas, digitsToNat,
       digitVal_one, digitVal_two, digitVal_three, digitVal_four, digitVal_five])⟩

/-- C9: in exact arithmetic the projected full-period overspend/savings
amount `(weeklyRent - affordableWeekly) * weeks` equals
`nonPrincipal - 0.3 * income` for every item list and period: the week count
cancels, so the figure does not depend on the selected period. -/
theorem c9_total_diff_period_independent :
    ∀ (items : List LineItem) (p p2 : String),
      (weeklyRent items p - affordableWeekly items p) * weeks p
        = nonPrincipal items - 3 / 10 * income items ∧
      (weeklyRent items p - affordableWeekly items p) * weeks p
        = (weeklyRent items p2 - affordableWeekly items p2) * weeks p2 := by
  have key : ∀ (items : List LineItem) (p : String),
      (weeklyRent items p - affordableWeekly items p) * weeks p
        = nonPrincipal items - 3 / 10 * income items := by
    intro items p
    have hw := weeks_ne_zero p
    unfold weeklyRent affordableWeekly
    by_cases h : income items = 0
    · rw [h]
      field_simp
    · simp only [h, if_false]
      field_simp
      ring
  exact fun items p p2 => ⟨key items p, (key items p).trans (key items p2).symm⟩

/-- C10: every division in the derivation has a nonzero divisor: the week
count is always 13, 26 or 52 (never 0), and each division by income is
guarded by the source's own `income ? _ : _` conditional, as the checked
variants of the four dividing computations witness by always returning a
value. -/
theorem c10_no_division_by_zero :
    ∀ (items : List LineItem) (period : String) (v : ℚ),
      (weeks period = 13 ∨ weeks period = 26 ∨ weeks period = 52) ∧
      weeks period ≠ 0 ∧
      pctIncomeChecked items = some (pctIncome items) ∧
      weeklyRentChecked items period = some (weeklyRent items period) ∧
      affordableWeeklyChecked items period = some (affordableWeekly items period) ∧
      (rowPercentChecked items v).isSome = true := by
  intro items period v
  have hw := weeks_ne_zero period
  refine ⟨weeks_cases period, hw, ?_, ?_, ?_, ?_⟩
  · unfold pctIncomeChecked pctIncome checkedDiv
    by_cases h : income items = 0 <;> simp [h]
  · unfold weeklyRentChecked weeklyRent checkedDiv
    simp [hw]
  · unfold affordableWeeklyChecked affordableWeekly checkedDiv
    by_cases h : income items = 0 <;> simp [h, hw]
  · unfold rowPercentChecked checkedDiv
    by_cases h : income items = 0 <;> simp [h]

/-- C1: the non-principal total is the sum of the values of exactly the items
named Rent/Interest Paid, Insurance Paid, Maintenance and Rates (Taxes); and
inserting an item named "Earnings", "Principal Paid", or "" — the name every
row created by the add-row handler carries, since the name field of an added
row has no change handler — anywhere in the list leaves the total unchanged. -/
theorem c1_nonPrincipal_interior_sum :
    ∀ items : List LineItem,
      nonPrincipal items =
        (((parsedItems items).filter (fun n => decide
          (n.name = "Rent/Interest Paid" ∨ n.name = "Insurance Paid" ∨
           n.name = "Maintenance" ∨ n.name = "Rates (Taxes)"))).map
          (fun n => n.value)).sum ∧
      (∀ (pre post : List LineItem) (it : LineItem),
        it.name = "Earnings" ∨ it.name = "Principal Paid" ∨ it.name = "" →
        nonPrincipal (pre ++ it :: post) = nonPrincipal (pre ++ post)) := by
  intro items
  have hlit : ((INPUT_CATEGORIES.drop 1).take 4) =
      ["Rent/Interest Paid", "Insurance Paid", "Maintenance", "Rates (Taxes)"] := rfl
  constructor
  · unfold nonPrincipal
    rw [foldl_add_value, zero_add]
    have hf : (parsedItems items).filter
        (fun n => ((INPUT_CATEGORIES.drop 1).take 4).contains n.name) =
        (parsedItems items).filter (fun n => decide
          (n.name = "Rent/Interest Paid" ∨ n.name = "Insurance Paid" ∨
           n.name = "Maintenance" ∨ n.name = "Rates (Taxes)")) := by
      apply List.filter_congr
      intro n _
      by_cases hd : (n.name = "Rent/Interest Paid" ∨ n.name = "Insurance Paid" ∨
          n.name = "Maintenance" ∨ n.name = "Rates (Taxes)")
      · rw [decide_eq_true hd, hlit]
        rcases hd with h | h | h | h <;> rw [h] <;> decide
      · rw [decide_eq_false hd, hlit]
        push_neg at hd
        obtain ⟨h1, h2, h3, h4⟩ := hd
        simp [beq_eq_false_iff_ne, h1, h2, h3, h4]
    rw [hf]
  · intro pre post it h
    unfold nonPrincipal parsedItems
    have hpred : (((INPUT_CATEGORIES.drop 1).take 4).contains
        (⟨it.name, parseAmount it.amount⟩ : ParsedItem).name) = false := by
      rcases h with h | h | h <;> simp only [h, hlit] <;> decide
    simp only [List.map_append, List.map_cons, List.filter_append,
      List.filter_cons, hpred, Bool.false_eq_true, if_false]

/-- Witness for C1: inserting an Earnings item does not change the
non-principal total. -/
theorem c1_nonPrincipal_interior_sum_witness :
    nonPrincipal [⟨"Maintenance", "20"⟩, ⟨"Earnings", "1000"⟩] =
      nonPrincipal [⟨"Maintenance", "20"⟩] :=
  (c1_nonPrincipal_interior_sum [⟨"Maintenance", "20"⟩, ⟨"Earnings", "1000"⟩]).2
    [⟨"Maintenance", "20"⟩] [] ⟨"Earnings", "1000"⟩ (Or.inl rfl)

/-- C6: the narrative has exactly 4 lines when an item named "Principal Paid"
is present in the input list (the `if (pp)` of line 104 tests the truthiness
of the object found, which holds whenever the item exists), and exactly 3
lines otherwise. -/
theorem c6_narrative_line_count :
    ∀ (items : List LineItem) (period : String),
      ((∃ it ∈ items, it.name = "Principal Paid") →
        (templates items period).length = 4) ∧
      ((¬ ∃ it ∈ items, it.name = "Principal Paid") →
        (templates items period).length = 3) := by
  intro items period
  have hiff : (((parsedItems items).find? (fun d => d.name == "Principal Paid")).isSome) = true ↔
      ∃ it ∈ items, it.name = "Principal Paid" := by
    rw [List.find?_isSome]
    constructor
    · rintro ⟨x, hx, hpx⟩
      unfold parsedItems at hx
      obtain ⟨it, hit, rfl⟩ := List.mem_map.mp hx
      exact ⟨it, hit, by simpa using hpx⟩
    · rintro ⟨it, hit, hname⟩
      exact ⟨⟨it.name, parseAmount it.amount⟩,
        List.mem_map.mpr ⟨it, hit, rfl⟩, by simp [hname]⟩
  constructor
  · intro hex
    obtain ⟨pp, hpp⟩ := Option.isSome_iff_exists.mp (hiff.mpr hex)
    unfold templates
    rw [hpp]
    simp
  · intro hnex
    have hnone : (parsedItems items).find? (fun d => d.name == "Principal Paid") = none := by
      rw [← Option.not_isSome_iff_eq_none]
      intro hs
      exact hnex (hiff.mp hs)
    unfold templates
    rw [hnone]
    simp

/-- Witness for C6: 4 lines with a Principal Paid item, 3 without. -/
theorem c6_narrative_line_count_witness :
    (templates [⟨"Principal Paid", "100"⟩] "Q1").length = 4 ∧
    (templates ([] : List LineItem) "Q1").length = 3 :=
  ⟨(c6_narrative_line_count [⟨"Principal Paid", "100"⟩] "Q1").1
     ⟨⟨"Principal Paid", "100"⟩, by simp, rfl⟩,
   (c6_narrative_line_count [] "Q1").2 (by simp)⟩

/-- C8: the report row sequence is the parsed items in order followed by the
four derived rows in fixed order, with Total Mortgage Outlay the sum of the
looked-up Rent/Interest Paid and Principal Paid values; a looked-up value is
0 when no item of that name exists. -/
theorem c8_final_items_order :
    ∀ (items : List LineItem) (period : String),
      finalItems items period =
        parsedItems items ++
          [⟨"Total Non-Principal Housing Expense", nonPrincipal items⟩,
           ⟨"Total Mortgage Outlay",
             findVal items "Rent/Interest Paid" + findVal items "Principal Paid"⟩,
           ⟨"Estimated Weekly Rent", weeklyRent items period⟩,
           ⟨"Affordable Weekly Rent", affordableWeekly items period⟩] ∧
      (finalItems items period).length = items.length + 4 ∧
      (∀ nm : String, (∀ it ∈ items, it.name ≠ nm) → findVal items nm = 0) := by
  intro items period
  refine ⟨?_, ?_, ?_⟩
  · unfold finalItems
    simp
  · unfold finalItems parsedItems
    simp
  · intro nm hnm
    unfold findVal
    have hnone : (parsedItems items).find? (fun n => n.name == nm) = none := by
      rw [List.find?_eq_none]
      intro x hx
      unfold parsedItems at hx
      obtain ⟨it, hit, rfl⟩ := List.mem_map.mp hx
      simpa using hnm it hit
    rw [hnone]
    rfl

/-- Witness for C8 on the empty item list. -/
theorem c8_final_items_order_witness :
    finalItems ([] : List LineItem) "Full Year" =
      [⟨"Total Non-Principal Housing Expense", nonPrincipal []⟩,
       ⟨"Total Mortgage Outlay", findVal [] "Rent/Interest Paid" + findVal [] "Principal Paid"⟩,
       ⟨"Estimated Weekly Rent", weeklyRent [] "Full Year"⟩,
       ⟨"Affordable Weekly Rent", affordableWeekly [] "Full Year"⟩] ∧
    findVal ([] : List LineItem) "Rent/Interest Paid" = 0 :=
  ⟨(c8_final_items_order [] "Full Year").1,
   (c8_final_items_order [] "Full Year").2.2 "Rent/Interest Paid" (by simp)⟩

theorem tableRow_name (items : List LineItem) (period : String) (it : ParsedItem) :
    (tableRow items period it).name = it.name := by
  unfold tableRow
  split_ifs <;> rfl

theorem string_append_ne_empty (pre s : String) (hpre : pre.length ≠ 0) :
    pre ++ s ≠ "" := by
  intro h
  have hlen := congrArg String.length h
  rw [String.length_append] at hlen
  have h0 : pre.length + s.length = 0 := by simpa using hlen
  omega

/-- C4 as stated is false: with no items at all the income is 0, yet the
"Estimated Weekly Rent" row — a row named neither "Earnings" nor
"Affordable Weekly Rent" — carries the percent string "Under by $0", not the
empty string. -/
theorem c4_percent_counterexample :
    income ([] : List LineItem) = 0 ∧
    ∃ row ∈ tableData ([] : List LineItem) "Full Year",
      row.name ≠ "Earnings" ∧ row.name ≠ "Affordable Weekly Rent" ∧
      row.percent ≠ "" := by
  refine ⟨rfl, tableRow [] "Full Year" ⟨"Estimated Weekly Rent", weeklyRent [] "Full Year"⟩,
    List.mem_map.mpr ⟨⟨"Estimated Weekly Rent", weeklyRent [] "Full Year"⟩,
      by simp [finalItems, parsedItems], rfl⟩, ?_⟩
  have hrow : tableRow [] "Full Year" ⟨"Estimated Weekly Rent", weeklyRent [] "Full Year"⟩ =
      ⟨"Estimated Weekly Rent", 0, "Under by $0"⟩ := by
    have hw : weeklyRent ([] : List LineItem) "Full Year" = 0 := by
      unfold weeklyRent nonPrincipal parsedItems
      simp
    unfold tableRow
    rw [if_pos rfl]
    have ha : affordableWeekly ([] : List LineItem) "Full Year" = 0 := rfl
    rw [hw, ha]
    norm_num +decide [formatAmount, jsRound2, groupedNat, group3, twoDigits]
  rw [hrow]
  exact ⟨by decide, by decide, by decide⟩

/-- C4 amended: the percent of the "Earnings" and "Affordable Weekly Rent"
rows is always the empty string; when income is 0 the percent of every row
other than "Estimated Weekly Rent" is also the empty string; and the
"Estimated Weekly Rent" row's percent is always the overspend/underspend
string and never empty, income 0 included. -/
theorem c4_amended_percents :
    ∀ (items : List LineItem) (period : String),
      (∀ row ∈ tableData items period,
        row.name = "Earnings" ∨ row.name = "Affordable Weekly Rent" →
        row.percent = "") ∧
      (income items = 0 → ∀ row ∈ tableData items period,
        row.name ≠ "Estimated Weekly Rent" → row.percent = "") ∧
      (∀ row ∈ tableData items period,
        row.name = "Estimated Weekly Rent" → row.percent ≠ "") := by
  intro items period
  refine ⟨?_, ?_, ?_⟩
  · intro row hrow hname
    obtain ⟨it, hit, rfl⟩ := List.mem_map.mp hrow
    rw [tableRow_name] at hname
    unfold tableRow
    have hne : ¬ it.name = "Estimated Weekly Rent" := by
      rcases hname with h | h <;> rw [h] <;> decide
    rw [if_neg hne, if_pos (Or.symm hname)]
  · intro hinc row hrow hname
    obtain ⟨it, hit, rfl⟩ := List.mem_map.mp hrow
    rw [tableRow_name] at hname
    unfold tableRow
    rw [if_neg hname]
    by_cases h2 : it.name = "Affordable Weekly Rent" ∨ it.name = "Earnings"
    · rw [if_pos h2]
    · rw [if_neg h2]
      simp [hinc]
  · intro row hrow hname
    obtain ⟨it, hit, rfl⟩ := List.mem_map.mp hrow
    rw [tableRow_name] at hname
    unfold tableRow
    rw [if_pos hname]
    dsimp only
    split_ifs with hd
    · exact string_append_ne_empty _ _ (by decide)
    · exact string_append_ne_empty _ _ (by decide)

/-- Witness for C4's amended statement at the empty item list. -/
theorem c4_amended_percents_witness :
    income ([] : List LineItem) = 0 ∧
    (∀ row ∈ tableData ([] : List LineItem) "Full Year",
      row.name ≠ "Estimated Weekly Rent" → row.percent = "") :=
  ⟨rfl, (c4_amended_percents [] "Full Year").2.1 rfl⟩

/-- C5: a report row is in the chart series exactly when it is a table row
not named "Earnings" whose percent string has a parsable leading number that
is at least 4; in particular any row whose leading percent number is below 4,
or whose percent has no leading number at all, is excluded. -/
theorem c5_chart_filter :
    ∀ (items : List LineItem) (period : String) (d : ReportRow),
      d ∈ chartItems items period ↔
        d ∈ tableData items period ∧ d.name ≠ "Earnings" ∧
        ∃ q : ℚ, parseFloatQ d.percent = some q ∧ 4 ≤ q := by
  intro items period d
  unfold chartItems
  rw [List.mem_filter, Bool.and_eq_true, bne_iff_ne, geFourParsed_eq_true_iff]

/-- Witness for C5: with earnings 1 and maintenance 1, the maintenance row
(100.00% of income) is a chart slice. -/
theorem c5_chart_filter_witness :
    (⟨"Maintenance", 1, "100.00%"⟩ : ReportRow) ∈
      chartItems [⟨"Earnings", "1"⟩, ⟨"Maintenance", "1"⟩] "Full Year" := by
  have h1 : parseAmount "1" = 1 := by
    norm_num +decide [parseAmount, parseFloatQ, stripCommas, digitsToNat, digitVal_one]
  have hp : parsedItems [⟨"Earnings", "1"⟩, ⟨"Maintenance", "1"⟩] =
      [⟨"Earnings", 1⟩, ⟨"Maintenance", 1⟩] := by
    simp [parsedItems, h1]
  have hinc : income [⟨"Earnings", "1"⟩, ⟨"Maintenance", "1"⟩] = 1 := by
    unfold income
    rw [hp]
    simp +decide [List.find?]
  apply (c5_chart_filter _ _ _).mpr
  refine ⟨?_, by decide, 100, ?_, by norm_num⟩
  · apply List.mem_map.mpr
    refine ⟨⟨"Maintenance", 1⟩, ?_, ?_⟩
    · unfold finalItems
      rw [hp]
      simp
    · unfold tableRow
      rw [if_neg (by decide), if_neg (by decide), hinc]
      norm_num +decide [toFixed2Str, jsRound2, twoDigits]
  · norm_num +decide [parseFloatQ, digitsToNat, digitVal_one, digitVal_zero]

end HousingExpense
